import Mathlib

/-!
Verification of AT_CellularDevice.cpp (mbed-os cellular framework): a shallow
embedding of the device coordinator, handle pool, subsystem cache, SIM state
decoding, PIN provisioning and power-save timer encoding, with theorems about
their specified behaviour.
-/

/-- Unified result code: success (NSAPI_ERROR_OK). -/
def NSAPI_ERROR_OK : Int := 0

/-- Unified result code: invalid caller-supplied argument (NSAPI_ERROR_PARAMETER). -/
def NSAPI_ERROR_PARAMETER : Int := -3003

/-- One operation issued on the AT protocol engine by AT_CellularDevice. -/
inductive ATCmd where
  | lock
  | unlock
  | flush
  | cmdStart (text : String)
  | cmdStop
  | cmdStopReadResp
  | writeInt (n : Nat)
  | writeString (s : String)
  | respStart (text : String)
  | readString
  | respStop
  | clearError
deriving DecidableEq

/-- ie_value_max in set_power_save_mode: the maximum 5-bit timer value, 0x1f. -/
def ie_value_max : Nat := 31

/-- Bucket selection for the periodic timer (3GPP TS 24.008 Table 10.5.163a),
translated from the nested conditionals of AT_CellularDevice::set_power_save_mode
lines 453-489: returns the binary coded timer value and the base string copied by
strcpy, whose first three characters are the unit tag. -/
def encode_periodic (periodic_time : Nat) : Nat × String :=
  if periodic_time ≤ 2 * ie_value_max then
    (periodic_time / 2, "01100000")
  else if periodic_time ≤ 30 * ie_value_max then
    (periodic_time / 30, "10000000")
  else if periodic_time ≤ 60 * ie_value_max then
    (periodic_time / 60, "10100000")
  else if periodic_time ≤ 10 * 60 * ie_value_max then
    (periodic_time / (10 * 60), "00000000")
  else if periodic_time ≤ 60 * 60 * ie_value_max then
    (periodic_time / (60 * 60), "00100000")
  else if periodic_time ≤ 10 * 60 * 60 * ie_value_max then
    (periodic_time / (10 * 60 * 60), "01000000")
  else
    (let t := periodic_time / (320 * 60 * 60)
     (if ie_value_max < t then ie_value_max else t), "11000000")

/-- Bucket selection for the active timer (3GPP TS 24.008 Table 10.5.172),
translated from AT_CellularDevice::set_power_save_mode lines 509-526; in the
one-minute branch the code composes the unit tag inline as (1 shl 5) or value. -/
def encode_active (active_time : Nat) : Nat × String :=
  if active_time ≤ 2 * ie_value_max then
    (active_time / 2, "00000000")
  else if active_time ≤ 60 * ie_value_max then
    ((1 <<< 5) ||| (active_time / 60), "00100000")
  else
    (let t := active_time / (6 * 60)
     (if ie_value_max < t then ie_value_max else t), "01000000")

/-- Modelled from the spec: mbed_cellular_util uint_to_binary_str is not under
src/; per the spec each 8-bit field is transmitted most-significant bit first
with the bottom 5 bits holding the magnitude, so the low bit_cnt bits of the
value are rendered most-significant bit first as characters 0 and 1.  This list
gives those characters for bit positions bit_cnt - 1 down to 0. -/
def binDigits (num : Nat) : Nat → List Char
  | 0 => []
  | n + 1 => (if (num >>> n) % 2 = 1 then '1' else '0') :: binDigits num n

/-- Modelled from the spec: see binDigits. -/
def uint_to_binary_str (num : Nat) (bit_cnt : Nat) : String :=
  ⟨binDigits num bit_cnt⟩

/-- The final 8-character timer field: the strcpy base string with
uint_to_binary_str of the 5 value bits written over positions 3 to 7. -/
def psm_field (base : String) (v : Nat) : String :=
  ⟨base.data.take 3 ++ (uint_to_binary_str v 5).data⟩

/-- The periodic timer field exactly as written by write_string. -/
def periodic_field (p : Nat) : String :=
  psm_field (encode_periodic p).2 (encode_periodic p).1

/-- The active timer field exactly as written by write_string. -/
def active_field (a : Nat) : String :=
  psm_field (encode_active a).2 (encode_active a).1

/-- AT_CellularDevice::set_power_save_mode lines 423-549: the nsapi error
surfaced to the caller (unlock_return_error, that is the engine last error) and
the trace of engine operations issued.  Durations are the two non-negative int
arguments. -/
def set_power_save_mode (periodic_time active_time : Nat) (engine_error : Int) :
    Int × List ATCmd :=
  if periodic_time = 0 ∧ active_time = 0 then
    (engine_error,
      [ATCmd.lock, ATCmd.cmdStart "AT+CPSMS=", ATCmd.writeInt 0,
       ATCmd.cmdStopReadResp, ATCmd.unlock])
  else
    (engine_error,
      [ATCmd.lock, ATCmd.cmdStart "AT+CPSMS=", ATCmd.writeInt 1,
       ATCmd.writeString (periodic_field periodic_time),
       ATCmd.writeString (active_field active_time),
       ATCmd.writeString (periodic_field periodic_time),
       ATCmd.writeString (active_field active_time),
       ATCmd.cmdStopReadResp, ATCmd.unlock])

/-- The ordered unit table for the periodic timer in the order the code tests
the buckets: unit seconds paired with the code base string whose first three
characters are the unit tag; the 320-hour fallback is not listed. -/
def psm_unit_table : List (Nat × String) :=
  [(2, "01100000"), (30, "10000000"), (60, "10100000"),
   (600, "00000000"), (3600, "00100000"), (36000, "01000000")]

/-- Claim C2 selection rule, formalized from the words of the spec: the first
unit whose unit-count floor(duration / unit-seconds) does not exceed 31, with
the 320-hour fallback clamped to 31. -/
def claim_select (d : Nat) : Nat × String :=
  match psm_unit_table.find? (fun u => d / u.1 ≤ 31) with
  | some u => (d / u.1, u.2)
  | none =>
    (let t := d / (320 * 60 * 60)
     (if ie_value_max < t then ie_value_max else t), "11000000")

/-- Amended selection rule: the first unit u in the same order whose capacity
covers the duration, that is duration ≤ 31 · unit-seconds. -/
def amended_select (d : Nat) : Nat × String :=
  match psm_unit_table.find? (fun u => d ≤ 31 * u.1) with
  | some u => (d / u.1, u.2)
  | none =>
    (let t := d / (320 * 60 * 60)
     (if ie_value_max < t then ie_value_max else t), "11000000")

/-- SIM state enumeration of CellularDevice. -/
inductive SimState where
  | Ready
  | PinNeeded
  | PukNeeded
  | Unknown
deriving DecidableEq

/-- Classification of the +CPIN reply token, AT_CellularDevice::get_sim_state
lines 137-153: none models a read_string result of -1 (no reply or read
failure); otherwise the length guard and memcmp of the leading 5 or 7
characters decide the state. -/
def classify_sim_reply (reply : Option String) : SimState :=
  match reply with
  | none => SimState.Unknown
  | some s =>
    if 5 ≤ s.length ∧ s.data.take 5 = "READY".data then SimState.Ready
    else if 7 ≤ s.length ∧ s.data.take 7 = "SIM PIN".data then SimState.PinNeeded
    else if 7 ≤ s.length ∧ s.data.take 7 = "SIM PUK".data then SimState.PukNeeded
    else SimState.Unknown

/-- Environment of one SIM-status exchange: the token read by read_string
(none for a -1 read) and the engine last error after the exchange. -/
structure SimEnv where
  reply : Option String
  lastError : Int
deriving DecidableEq

/-- The engine operations issued by get_sim_state, in order. -/
def sim_query_trace : List ATCmd :=
  [ATCmd.lock, ATCmd.flush, ATCmd.cmdStart "AT+CPIN?", ATCmd.cmdStop,
   ATCmd.respStart "+CPIN:", ATCmd.readString, ATCmd.respStop, ATCmd.unlock]

/-- AT_CellularDevice::get_sim_state lines 129-174: the decided state, the
returned error (the engine last error read after resp_stop) and the trace. -/
def get_sim_state (env : SimEnv) : SimState × Int × List ATCmd :=
  (classify_sim_reply env.reply, env.lastError, sim_query_trace)

/-- Environment of a set_pin call: the SIM-status exchange outcome and the
engine last error after the AT+CPIN= exchange. -/
structure PinEnv where
  sim : SimEnv
  pinError : Int
deriving DecidableEq

/-- AT_CellularDevice::set_pin lines 176-194: none models a null sim_pin. -/
def set_pin (env : PinEnv) (sim_pin : Option String) : Int × List ATCmd :=
  let q := get_sim_state env.sim
  if q.2.1 = NSAPI_ERROR_OK ∧ q.1 = SimState.Ready then
    (NSAPI_ERROR_OK, q.2.2)
  else
    match sim_pin with
    | none => (NSAPI_ERROR_PARAMETER, q.2.2)
    | some pin =>
      (env.pinError,
        q.2.2 ++ [ATCmd.lock, ATCmd.cmdStart "AT+CPIN=", ATCmd.writeString pin,
                  ATCmd.cmdStopReadResp, ATCmd.unlock])

/-- One ATHandler as tracked by the pool: identity of the object, its file
handle (transport), reference count, default timeout and debug flag, with the
successor pointer represented by the position in the pool list. -/
structure ATHandler where
  id : Nat
  fileHandle : Nat
  refCount : Int
  timeout : Int
  debugOn : Bool
deriving DecidableEq

/-- One constructed subsystem object: identity plus the handler it is bound to. -/
structure Subsys where
  subId : Nat
  handlerId : Nat
deriving DecidableEq

/-- One AT_CellularContext node of the context list. -/
structure CellCtx where
  ctxId : Nat
  handlerId : Nat
deriving DecidableEq

/-- The state of one AT_CellularDevice: the handler pool (head of the
_atHandlers list first), the default file handle, timeout and debug flag, the
four subsystem slots with their reference counts, the context list, and event
logs of constructed and destroyed object identities. -/
structure DeviceState where
  atHandlers : List ATHandler
  fh : Nat
  defaultTimeout : Int
  modemDebugOn : Bool
  nextId : Nat
  nextSubId : Nat
  network : Option Subsys
  networkRefCount : Int
  sms : Option Subsys
  smsRefCount : Int
  power : Option Subsys
  powerRefCount : Int
  information : Option Subsys
  infoRefCount : Int
  contextList : List CellCtx
  constructed : List Nat
  destroyed : List Nat
  destroyedSubs : List Nat
  destroyedCtxs : List Nat
deriving DecidableEq

/-- The search loop of get_at_handler: the first handler with this file handle
gets its reference count incremented; returns the updated pool and that
handler id, or none when no handler matches. -/
def findInc (fh : Nat) : List ATHandler → Option (List ATHandler × Nat)
  | [] => none
  | h :: t =>
    if h.fileHandle = fh then
      some ({ h with refCount := h.refCount + 1 } :: t, h.id)
    else
      match findInc fh t with
      | some r => some (h :: r.1, r.2)
      | none => none

/-- AT_CellularDevice::get_at_handler lines 78-100: a null argument defaults to
the device file handle; an existing handler is reused with its count
incremented; otherwise a new handler is constructed with the device default
timeout and debug flag and linked at the head, and the construction recorded. -/
def get_at_handler (s : DeviceState) (fileHandle : Option Nat) : DeviceState × Nat :=
  match findInc (fileHandle.getD s.fh) s.atHandlers with
  | some r => ({ s with atHandlers := r.1 }, r.2)
  | none =>
    ({ s with
        atHandlers := { id := s.nextId, fileHandle := fileHandle.getD s.fh, refCount := 1,
                        timeout := s.defaultTimeout,
                        debugOn := s.modemDebugOn } :: s.atHandlers,
        nextId := s.nextId + 1,
        constructed := s.constructed ++ [s.nextId] }, s.nextId)

/-- dec_ref_count on the handler object with this identity. -/
def decRef (i : Nat) (pool : List ATHandler) : List ATHandler :=
  pool.map (fun h => if h.id = i then { h with refCount := h.refCount - 1 } else h)

/-- The unlink loop of release_at_handler: removes the first node with this
identity and stops. -/
def eraseById (i : Nat) : List ATHandler → List ATHandler
  | [] => []
  | h :: t => if h.id = i then t else h :: eraseById i t

/-- Pool effect of release_at_handler: decrement the count of the object, then
unlink and delete it when the count reached zero; the flag reports whether the
handler was destroyed. -/
def releasePool (i : Nat) (pool : List ATHandler) : List ATHandler × Bool :=
  let pool1 := decRef i pool
  match pool1.find? (fun h => h.id == i) with
  | some h => if h.refCount = 0 then (eraseById i pool1, true) else (pool1, false)
  | none => (pool1, false)

/-- AT_CellularDevice::release_at_handler lines 102-127: a null argument is a
no-op; a destroyed handler is recorded. -/
def release_at_handler (s : DeviceState) (hid : Option Nat) : DeviceState :=
  match hid with
  | none => s
  | some i =>
    let r := releasePool i s.atHandlers
    if r.2 then
      { s with atHandlers := r.1, destroyed := s.destroyed ++ [i] }
    else
      { s with atHandlers := r.1 }

/-- AT_CellularDevice::open_network lines 248-260: when the slot is empty a
handler is acquired and the subsystem constructed bound to it; in all cases a
non-empty slot gets its reference count incremented and is returned. -/
def open_network (s : DeviceState) (fh : Option Nat) : DeviceState × Option Subsys :=
  let s1 :=
    match s.network with
    | none =>
      let r := get_at_handler s fh
      { r.1 with network := some { subId := r.1.nextSubId, handlerId := r.2 },
                 nextSubId := r.1.nextSubId + 1 }
    | some _ => s
  match s1.network with
  | some n => ({ s1 with networkRefCount := s1.networkRefCount + 1 }, some n)
  | none => (s1, none)

/-- AT_CellularDevice::open_sms lines 262-274. -/
def open_sms (s : DeviceState) (fh : Option Nat) : DeviceState × Option Subsys :=
  let s1 :=
    match s.sms with
    | none =>
      let r := get_at_handler s fh
      { r.1 with sms := some { subId := r.1.nextSubId, handlerId := r.2 },
                 nextSubId := r.1.nextSubId + 1 }
    | some _ => s
  match s1.sms with
  | some n => ({ s1 with smsRefCount := s1.smsRefCount + 1 }, some n)
  | none => (s1, none)

/-- AT_CellularDevice::open_power lines 276-288. -/
def open_power (s : DeviceState) (fh : Option Nat) : DeviceState × Option Subsys :=
  let s1 :=
    match s.power with
    | none =>
      let r := get_at_handler s fh
      { r.1 with power := some { subId := r.1.nextSubId, handlerId := r.2 },
                 nextSubId := r.1.nextSubId + 1 }
    | some _ => s
  match s1.power with
  | some n => ({ s1 with powerRefCount := s1.powerRefCount + 1 }, some n)
  | none => (s1, none)

/-- AT_CellularDevice::open_information lines 290-302. -/
def open_information (s : DeviceState) (fh : Option Nat) : DeviceState × Option Subsys :=
  let s1 :=
    match s.information with
    | none =>
      let r := get_at_handler s fh
      { r.1 with information := some { subId := r.1.nextSubId, handlerId := r.2 },
                 nextSubId := r.1.nextSubId + 1 }
    | some _ => s
  match s1.information with
  | some n => ({ s1 with infoRefCount := s1.infoRefCount + 1 }, some n)
  | none => (s1, none)

/-- AT_CellularDevice::close_network lines 324-335: decrement the count; at
zero destroy the subsystem, clear the slot and release its handler. -/
def close_network (s : DeviceState) : DeviceState :=
  match s.network with
  | none => s
  | some n =>
    if s.networkRefCount - 1 = 0 then
      release_at_handler
        { s with networkRefCount := s.networkRefCount - 1, network := none,
                 destroyedSubs := s.destroyedSubs ++ [n.subId] }
        (some n.handlerId)
    else
      { s with networkRefCount := s.networkRefCount - 1 }

/-- AT_CellularDevice::close_sms lines 337-348. -/
def close_sms (s : DeviceState) : DeviceState :=
  match s.sms with
  | none => s
  | some n =>
    if s.smsRefCount - 1 = 0 then
      release_at_handler
        { s with smsRefCount := s.smsRefCount - 1, sms := none,
                 destroyedSubs := s.destroyedSubs ++ [n.subId] }
        (some n.handlerId)
    else
      { s with smsRefCount := s.smsRefCount - 1 }

/-- AT_CellularDevice::close_power lines 350-361. -/
def close_power (s : DeviceState) : DeviceState :=
  match s.power with
  | none => s
  | some n =>
    if s.powerRefCount - 1 = 0 then
      release_at_handler
        { s with powerRefCount := s.powerRefCount - 1, power := none,
                 destroyedSubs := s.destroyedSubs ++ [n.subId] }
        (some n.handlerId)
    else
      { s with powerRefCount := s.powerRefCount - 1 }

/-- AT_CellularDevice::close_information lines 363-374. -/
def close_information (s : DeviceState) : DeviceState :=
  match s.information with
  | none => s
  | some n =>
    if s.infoRefCount - 1 = 0 then
      release_at_handler
        { s with infoRefCount := s.infoRefCount - 1, information := none,
                 destroyedSubs := s.destroyedSubs ++ [n.subId] }
        (some n.handlerId)
    else
      { s with infoRefCount := s.infoRefCount - 1 }

/-- AT_CellularDevice destructor lines 46-75: force the four reference counts
to 1, close the four subsystems, delete every context node, then delete every
handler left in the pool. -/
def destruct (s : DeviceState) : DeviceState :=
  let s1 := { s with networkRefCount := 1, smsRefCount := 1,
                     powerRefCount := 1, infoRefCount := 1 }
  let s2 := close_network s1
  let s3 := close_sms s2
  let s4 := close_power s3
  let s5 := close_information s4
  let s6 := { s5 with contextList := [],
                      destroyedCtxs := s5.destroyedCtxs ++ s5.contextList.map CellCtx.ctxId }
  { s6 with atHandlers := [],
            destroyed := s6.destroyed ++ s6.atHandlers.map ATHandler.id }

/-- N successive get_at_handler calls on the same argument, collecting the
returned handler ids. -/
def acqIter (fh : Option Nat) : Nat → DeviceState → DeviceState × List Nat
  | 0, s => (s, [])
  | n + 1, s =>
    let r := get_at_handler s fh
    let r2 := acqIter fh n r.1
    (r2.1, r.2 :: r2.2)

/-- Successive release_at_handler calls on the listed handler ids. -/
def relIter (ids : List Nat) (s : DeviceState) : DeviceState :=
  ids.foldl (fun t i => release_at_handler t (some i)) s

/-- Number of pool entries bound to transport T. -/
def countT (T : Nat) (s : DeviceState) : Nat :=
  s.atHandlers.countP (fun h => h.fileHandle == T)

/-- Successive open_network calls with the listed transport arguments,
collecting the returned subsystems. -/
def openNetIter : List (Option Nat) → DeviceState → DeviceState × List (Option Subsys)
  | [], s => (s, [])
  | fh :: rest, s =>
    let r := open_network s fh
    let r2 := openNetIter rest r.1
    (r2.1, r.2 :: r2.2)

/-- N successive close_network calls. -/
def closeNetIter : Nat → DeviceState → DeviceState
  | 0, s => s
  | n + 1, s => closeNetIter n (close_network s)

/-- The device state after the pool gained one handler for transport T with
reference count k at the head: the shape reached by acquiring T on a pool that
had no handler for T. -/
def poolState (s0 : DeviceState) (T : Nat) (k : Int) : DeviceState :=
  { s0 with
      atHandlers := { id := s0.nextId, fileHandle := T, refCount := k,
                      timeout := s0.defaultTimeout,
                      debugOn := s0.modemDebugOn } :: s0.atHandlers,
      nextId := s0.nextId + 1,
      constructed := s0.constructed ++ [s0.nextId] }

/-- The device state after a fresh handler was constructed and later destroyed:
the pool is back to its original value and the construction and destruction of
the one handler are recorded. -/
def afterAcqRel (s0 : DeviceState) : DeviceState :=
  { s0 with
      nextId := s0.nextId + 1,
      constructed := s0.constructed ++ [s0.nextId],
      destroyed := s0.destroyed ++ [s0.nextId] }

/-- A concrete freshly constructed device with an empty pool, used to evaluate
the theorems on concrete inputs. -/
def sampleDevice : DeviceState :=
  { atHandlers := [], fh := 1, defaultTimeout := 1000, modemDebugOn := false,
    nextId := 0, nextSubId := 0, network := none, networkRefCount := 0,
    sms := none, smsRefCount := 0, power := none, powerRefCount := 0,
    information := none, infoRefCount := 0, contextList := [],
    constructed := [], destroyed := [], destroyedSubs := [], destroyedCtxs := [] }

/-- The device state at the start of the destructor, after the four reference
counts are forced to 1. -/
def destructS1 (s : DeviceState) : DeviceState :=
  { s with networkRefCount := 1, smsRefCount := 1, powerRefCount := 1, infoRefCount := 1 }

/-- The device state after the destructor closed the four subsystems. -/
def destructS5 (s : DeviceState) : DeviceState :=
  close_information (close_power (close_sms (close_network (destructS1 s))))

/-- A concrete device with a live handler, an open network subsystem and one
context, used to evaluate teardown on a concrete input. -/
def sampleDeviceFull : DeviceState :=
  { sampleDevice with
      atHandlers := [{ id := 0, fileHandle := 1, refCount := 2, timeout := 1000, debugOn := false }],
      nextId := 1,
      network := some { subId := 100, handlerId := 0 },
      networkRefCount := 1,
      contextList := [{ ctxId := 50, handlerId := 0 }] }

theorem binDigits_length (v : Nat) : ∀ n, (binDigits v n).length = n := by
  intro n; induction n with
  | zero => rfl
  | succ m ih => simp [binDigits, ih]

theorem binDigits_chars (v : Nat) : ∀ n, ∀ c ∈ binDigits v n, c = '0' ∨ c = '1' := by
  intro n; induction n with
  | zero => simp [binDigits]
  | succ m ih =>
    intro c hc
    simp only [binDigits, List.mem_cons] at hc
    rcases hc with hc | hc
    · subst hc; split <;> simp
    · exact ih c hc

theorem encode_periodic_base (p : Nat) :
    (encode_periodic p).2 ∈ ["01100000", "10000000", "10100000", "00000000",
                             "00100000", "01000000", "11000000"] := by
  unfold encode_periodic
  split_ifs <;> simp

theorem encode_active_base (a : Nat) :
    (encode_active a).2 ∈ ["00000000", "00100000", "01000000"] := by
  unfold encode_active
  split_ifs <;> simp

theorem base_take3 (b : String)
    (hb : b ∈ ["01100000", "10000000", "10100000", "00000000",
               "00100000", "01000000", "11000000"]) :
    (b.data.take 3).length = 3 ∧ ∀ c ∈ b.data.take 3, c = '0' ∨ c = '1' := by
  fin_cases hb <;> exact ⟨rfl, by decide⟩

theorem psm_field_spec (b : String) (v : Nat)
    (hb : b ∈ ["01100000", "10000000", "10100000", "00000000",
               "00100000", "01000000", "11000000"]) :
    (psm_field b v).length = 8
    ∧ (∀ c ∈ (psm_field b v).data, c = '0' ∨ c = '1')
    ∧ (psm_field b v).data.take 3 = b.data.take 3
    ∧ (psm_field b v).data.drop 3 = binDigits v 5 := by
  obtain ⟨hlen, hch⟩ := base_take3 b hb
  refine ⟨?_, ?_, ?_, ?_⟩
  · show (b.data.take 3 ++ binDigits v 5).length = 8
    simp [hlen, binDigits_length]
  · intro c hc
    simp only [psm_field, List.mem_append] at hc
    rcases hc with hc | hc
    · exact hch c hc
    · exact binDigits_chars v 5 c hc
  · show (b.data.take 3 ++ binDigits v 5).take 3 = b.data.take 3
    rw [List.take_left' hlen]
  · show (b.data.take 3 ++ binDigits v 5).drop 3 = binDigits v 5
    rw [List.drop_left' hlen]

theorem binDigits_getD (v : Nat) (i : Nat) (hi : i < 5) :
    (binDigits v 5).getD i ' ' = (if (v >>> (4 - i)) % 2 = 1 then '1' else '0') := by
  interval_cases i <;> rfl

/-- Claim C1, counterexample: the spec boundary cases fail on the code.  At
periodic = 60 the code selects the 2-second bucket with magnitude 60 / 2 = 30
and does not produce the claimed 30-second bucket value (2, tag 100). -/
theorem c1_cex :
    encode_periodic 60 = (30, "01100000") ∧ ¬ encode_periodic 60 = (2, "10000000") ∧
    ¬ encode_periodic 621 = (621 / 3600, "00100000") ∧
    ¬ encode_periodic 1000000 = (31, "11000000") := by
  decide

/-- Claim C1 as amended: periodic = 0 and active = 0 produce only the disable
command; periodic = 60 falls in the 2-second bucket with magnitude 30;
periodic = 621 falls in the 30-second bucket with magnitude 20;
periodic = 1000000 falls in the 10-hour bucket with magnitude 27, unclamped;
active = 90 is encoded in the 1-minute unit with the inline tag-combined value
(1 shl 5) or 1. -/
theorem c1_amended :
    (∀ e : Int, (set_power_save_mode 0 0 e).2 =
      [ATCmd.lock, ATCmd.cmdStart "AT+CPSMS=", ATCmd.writeInt 0,
       ATCmd.cmdStopReadResp, ATCmd.unlock])
    ∧ encode_periodic 60 = (30, "01100000")
    ∧ encode_periodic 621 = (20, "10000000")
    ∧ encode_periodic 1000000 = (27, "01000000")
    ∧ 1000000 / 36000 = 27
    ∧ encode_active 90 = ((1 <<< 5) ||| 1, "00100000") := by
  refine ⟨fun e => rfl, ?_, ?_, ?_, ?_, ?_⟩ <;> decide

/-- Claim C10: when exactly one of the two durations is zero,
set_power_save_mode sends the enable command, not the disable command; the
zero duration is encoded in that timer smallest unit bucket with magnitude 0,
giving active field 00000000 and periodic field 01100000; no disable write
(write_int 0) appears in the trace. -/
theorem c10_single_zero (p a : Nat) (e : Int)
    (h : (p = 0 ∧ a ≠ 0) ∨ (p ≠ 0 ∧ a = 0)) :
    (set_power_save_mode p a e).2 =
      [ATCmd.lock, ATCmd.cmdStart "AT+CPSMS=", ATCmd.writeInt 1,
       ATCmd.writeString (periodic_field p), ATCmd.writeString (active_field a),
       ATCmd.writeString (periodic_field p), ATCmd.writeString (active_field a),
       ATCmd.cmdStopReadResp, ATCmd.unlock]
    ∧ (p = 0 → periodic_field p = "01100000")
    ∧ (a = 0 → active_field a = "00000000")
    ∧ ATCmd.writeInt 0 ∉ (set_power_save_mode p a e).2 := by
  have hn : ¬ (p = 0 ∧ a = 0) := by
    rcases h with ⟨h1, h2⟩ | ⟨h1, h2⟩ <;> simp_all
  refine ⟨?_, ?_, ?_, ?_⟩
  · simp [set_power_save_mode, hn]
  · intro hp; subst hp; decide
  · intro ha; subst ha; decide
  · simp [set_power_save_mode, hn]

theorem c10_witness : periodic_field 0 = "01100000" :=
  (c10_single_zero 0 90 0 (Or.inl (by decide))).2.1 rfl

/-- Claim C3: with at least one duration non-zero, set_power_save_mode issues
AT+CPSMS=1 followed by the periodic field, the active field, the periodic
field again and the active field again; each field is an 8-character string of
0 and 1 characters, 3 unit-tag characters followed by the 5 magnitude bits
most-significant bit first; and the call returns the underlying engine error
code whatever its value. -/
theorem c3_enable (p a : Nat) (e : Int) (h : ¬ (p = 0 ∧ a = 0)) :
    (set_power_save_mode p a e).1 = e
    ∧ (set_power_save_mode p a e).2 =
      [ATCmd.lock, ATCmd.cmdStart "AT+CPSMS=", ATCmd.writeInt 1,
       ATCmd.writeString (periodic_field p), ATCmd.writeString (active_field a),
       ATCmd.writeString (periodic_field p), ATCmd.writeString (active_field a),
       ATCmd.cmdStopReadResp, ATCmd.unlock]
    ∧ (periodic_field p).length = 8
    ∧ (active_field a).length = 8
    ∧ (∀ c ∈ (periodic_field p).data, c = '0' ∨ c = '1')
    ∧ (∀ c ∈ (active_field a).data, c = '0' ∨ c = '1')
    ∧ (periodic_field p).data.take 3 = (encode_periodic p).2.data.take 3
    ∧ (periodic_field p).data.drop 3 = binDigits (encode_periodic p).1 5
    ∧ (active_field a).data.take 3 = (encode_active a).2.data.take 3
    ∧ (active_field a).data.drop 3 = binDigits (encode_active a).1 5
    ∧ (∀ i, i < 5 → ((periodic_field p).data.drop 3).getD i ' ' =
        (if ((encode_periodic p).1 >>> (4 - i)) % 2 = 1 then '1' else '0'))
    ∧ (∀ i, i < 5 → ((active_field a).data.drop 3).getD i ' ' =
        (if ((encode_active a).1 >>> (4 - i)) % 2 = 1 then '1' else '0')) := by
  have hpm : (encode_active a).2 ∈ ["01100000", "10000000", "10100000", "00000000",
                             "00100000", "01000000", "11000000"] := by
    have hb := encode_active_base a
    simp only [List.mem_cons, List.not_mem_nil, or_false] at hb
    rcases hb with hb | hb | hb <;> simp [hb]
  obtain ⟨hl1, hc1, ht1, hd1⟩ :=
    psm_field_spec (encode_periodic p).2 (encode_periodic p).1 (encode_periodic_base p)
  obtain ⟨hl2, hc2, ht2, hd2⟩ := psm_field_spec (encode_active a).2 (encode_active a).1 hpm
  refine ⟨?_, ?_, hl1, hl2, hc1, hc2, ht1, hd1, ht2, hd2, ?_, ?_⟩
  · simp [set_power_save_mode, h]
  · simp [set_power_save_mode, h]
  · intro i hi
    rw [show (periodic_field p).data.drop 3 = binDigits (encode_periodic p).1 5 from hd1]
    exact binDigits_getD _ i hi
  · intro i hi
    rw [show (active_field a).data.drop 3 = binDigits (encode_active a).1 5 from hd2]
    exact binDigits_getD _ i hi

theorem c3_witness : (set_power_save_mode 60 90 (-7)).1 = -7 :=
  (c3_enable 60 90 (-7) (by decide)).1

/-- Claim C2, counterexample: at duration 63 the spec selection rule (first
unit whose unit-count floor(63 / 2) = 31 does not exceed 31) picks the
2-second unit with magnitude 31, but the code selects the 30-second bucket
with magnitude 2. -/
theorem c2_cex :
    claim_select 63 = (31, "01100000") ∧ encode_periodic 63 = (2, "10000000") ∧
      encode_periodic 63 ≠ claim_select 63 := by
  decide

theorem classify_some (s : String) :
    classify_sim_reply (some s) =
      (if 5 ≤ s.length ∧ s.data.take 5 = "READY".data then SimState.Ready
       else if 7 ≤ s.length ∧ s.data.take 7 = "SIM PIN".data then SimState.PinNeeded
       else if 7 ≤ s.length ∧ s.data.take 7 = "SIM PUK".data then SimState.PukNeeded
       else SimState.Unknown) := rfl

theorem pin_not_ready (s : String) (h : s.data.take 7 = "SIM PIN".data) :
    ¬ (5 ≤ s.length ∧ s.data.take 5 = "READY".data) := by
  rintro ⟨-, hr⟩
  have h5 : s.data.take 5 = "SIM P".data := by
    have := congrArg (List.take 5) h
    simpa [List.take_take] using this
  rw [hr] at h5
  exact absurd h5 (by decide)

theorem puk_not_ready (s : String) (h : s.data.take 7 = "SIM PUK".data) :
    ¬ (5 ≤ s.length ∧ s.data.take 5 = "READY".data) := by
  rintro ⟨-, hr⟩
  have h5 : s.data.take 5 = "SIM P".data := by
    have := congrArg (List.take 5) h
    simpa [List.take_take] using this
  rw [hr] at h5
  exact absurd h5 (by decide)

theorem puk_not_pin (s : String) (h : s.data.take 7 = "SIM PUK".data) :
    ¬ (7 ≤ s.length ∧ s.data.take 7 = "SIM PIN".data) := by
  rintro ⟨-, hp⟩
  rw [hp] at h
  exact absurd h (by decide)

/-- Claim C6: get_sim_state classifies the first token of the reply: a
5-character match READY gives Ready, a 7-character match SIM PIN gives
PinNeeded, a 7-character match SIM PUK gives PukNeeded, any other content and
a missing reply give Unknown; and the returned error code is the underlying
exchange error status for every possible reply. -/
theorem c6_sim_state (env : SimEnv) :
    (get_sim_state env).2.1 = env.lastError
    ∧ (env.reply = none → (get_sim_state env).1 = SimState.Unknown)
    ∧ (∀ s, env.reply = some s →
        ((5 ≤ s.length ∧ s.data.take 5 = "READY".data) →
          (get_sim_state env).1 = SimState.Ready)
        ∧ ((7 ≤ s.length ∧ s.data.take 7 = "SIM PIN".data) →
          (get_sim_state env).1 = SimState.PinNeeded)
        ∧ ((7 ≤ s.length ∧ s.data.take 7 = "SIM PUK".data) →
          (get_sim_state env).1 = SimState.PukNeeded)
        ∧ (¬ (5 ≤ s.length ∧ s.data.take 5 = "READY".data) →
           ¬ (7 ≤ s.length ∧ s.data.take 7 = "SIM PIN".data) →
           ¬ (7 ≤ s.length ∧ s.data.take 7 = "SIM PUK".data) →
           (get_sim_state env).1 = SimState.Unknown)) := by
  refine ⟨rfl, ?_, ?_⟩
  · intro h
    show classify_sim_reply env.reply = SimState.Unknown
    rw [h]
    rfl
  · intro s hs
    have hcl : (get_sim_state env).1 = classify_sim_reply (some s) := by
      show classify_sim_reply env.reply = _
      rw [hs]
    rw [hcl, classify_some]
    refine ⟨?_, ?_, ?_, ?_⟩
    · intro h; rw [if_pos h]
    · intro h
      rw [if_neg (pin_not_ready s h.2), if_pos h]
    · intro h
      rw [if_neg (puk_not_ready s h.2), if_neg (puk_not_pin s h.2), if_pos h]
    · intro h1 h2 h3
      rw [if_neg h1, if_neg h2, if_neg h3]

theorem c6_witness : (get_sim_state ⟨some "SIM PUK", -2⟩).1 = SimState.PukNeeded :=
  ((c6_sim_state ⟨some "SIM PUK", -2⟩).2.2 "SIM PUK" rfl).2.2.1 (by decide)

/-- Claim C7, counterexample: with a reply READY but a non-OK query error,
set_pin does not return success immediately; it sends the AT+CPIN= command
even though the decided state is Ready, because the code also requires the
query to return NSAPI_ERROR_OK. -/
theorem c7_cex :
    classify_sim_reply (some "READY") = SimState.Ready
    ∧ (set_pin ⟨⟨some "READY", -4⟩, -7⟩ (some "1234")).1 ≠ NSAPI_ERROR_OK
    ∧ ATCmd.cmdStart "AT+CPIN=" ∈ (set_pin ⟨⟨some "READY", -4⟩, -7⟩ (some "1234")).2 := by
  decide

/-- Claim C7 as amended: set_pin first performs the SIM-state query; if the
query returns NSAPI_ERROR_OK and the state is Ready the call returns success
immediately without a PIN-set command; otherwise a null PIN is a parameter
error, and a supplied PIN causes AT+CPIN= to be sent with its error status
returned. -/
theorem c7_amended (env : PinEnv) (sim_pin : Option String) :
    (env.sim.lastError = NSAPI_ERROR_OK ∧ classify_sim_reply env.sim.reply = SimState.Ready →
      set_pin env sim_pin = (NSAPI_ERROR_OK, sim_query_trace))
    ∧ (¬ (env.sim.lastError = NSAPI_ERROR_OK ∧ classify_sim_reply env.sim.reply = SimState.Ready) →
        set_pin env none = (NSAPI_ERROR_PARAMETER, sim_query_trace))
    ∧ (∀ p, ¬ (env.sim.lastError = NSAPI_ERROR_OK ∧ classify_sim_reply env.sim.reply = SimState.Ready) →
        set_pin env (some p) = (env.pinError,
          sim_query_trace ++ [ATCmd.lock, ATCmd.cmdStart "AT+CPIN=", ATCmd.writeString p,
                              ATCmd.cmdStopReadResp, ATCmd.unlock])) := by
  refine ⟨?_, ?_, ?_⟩
  · intro h
    simp [set_pin, get_sim_state, h.1, h.2]
  · intro h
    simp [set_pin, get_sim_state, h]
  · intro p h
    simp [set_pin, get_sim_state, h]

theorem c7_witness : set_pin ⟨⟨some "READY", 0⟩, -7⟩ none = (NSAPI_ERROR_OK, sim_query_trace) :=
  (c7_amended ⟨⟨some "READY", 0⟩, -7⟩ none).1 (by decide)

/-- Claim C8, counterexample: set_pin with a null PIN returns the parameter
error, but a command exchange has already been issued on the transport: the
SIM-state query AT+CPIN? appears in the trace before the rejection. -/
theorem c8_cex :
    (set_pin ⟨⟨some "SIM PIN", 0⟩, 0⟩ none).1 = NSAPI_ERROR_PARAMETER
    ∧ ATCmd.cmdStart "AT+CPIN?" ∈ (set_pin ⟨⟨some "SIM PIN", 0⟩, 0⟩ none).2 := by
  decide

/-- Claim C8 as amended: for set_pin with a null PIN (and the SIM not already
confirmed Ready) the parameter error is produced without any PIN-set exchange:
the trace is exactly the SIM-state query trace and contains no AT+CPIN=
command; the query itself however has already touched the transport. -/
theorem c8_amended (env : PinEnv)
    (h : ¬ (env.sim.lastError = NSAPI_ERROR_OK ∧
            classify_sim_reply env.sim.reply = SimState.Ready)) :
    (set_pin env none).1 = NSAPI_ERROR_PARAMETER
    ∧ (set_pin env none).2 = sim_query_trace
    ∧ ATCmd.cmdStart "AT+CPIN=" ∉ (set_pin env none).2 := by
  have ht : set_pin env none = (NSAPI_ERROR_PARAMETER, sim_query_trace) := by
    simp [set_pin, get_sim_state, h]
  refine ⟨by rw [ht], by rw [ht], ?_⟩
  rw [ht]
  decide

theorem c8_witness : (set_pin ⟨⟨none, 0⟩, 0⟩ none).1 = NSAPI_ERROR_PARAMETER :=
  (c8_amended ⟨⟨none, 0⟩, 0⟩ (by decide)).1

theorem findInc_eq_none (fh : Nat) (l : List ATHandler)
    (h : ∀ x ∈ l, x.fileHandle ≠ fh) : findInc fh l = none := by
  induction l with
  | nil => rfl
  | cons a t ih =>
    simp only [findInc]
    rw [if_neg (h a (List.mem_cons_self a t)),
        ih (fun x hx => h x (List.mem_cons_of_mem a hx))]

theorem decRef_not_mem (i : Nat) (l : List ATHandler)
    (h : ∀ x ∈ l, x.id ≠ i) : decRef i l = l := by
  induction l with
  | nil => rfl
  | cons a t ih =>
    have ht := ih (fun x hx => h x (List.mem_cons_of_mem a hx))
    simp only [decRef, List.map_cons] at ht ⊢
    rw [if_neg (h a (List.mem_cons_self a t)), ht]

theorem releasePool_head (i fh : Nat) (k tmo : Int) (db : Bool) (t : List ATHandler)
    (ht : ∀ x ∈ t, x.id ≠ i) :
    releasePool i
      ({ id := i, fileHandle := fh, refCount := k, timeout := tmo, debugOn := db } :: t) =
      if k - 1 = 0 then (t, true)
      else ({ id := i, fileHandle := fh, refCount := k - 1, timeout := tmo,
              debugOn := db } :: t, false) := by
  unfold releasePool
  have hm : decRef i t = t := decRef_not_mem i t ht
  simp only [decRef, List.map_cons] at hm ⊢
  rw [hm]
  by_cases hk : k - 1 = 0
  · simp [hk, List.find?, eraseById]
  · simp [hk, List.find?]

theorem get_at_handler_fresh (s : DeviceState) (fhArg : Option Nat)
    (h : ∀ x ∈ s.atHandlers, x.fileHandle ≠ fhArg.getD s.fh) :
    get_at_handler s fhArg =
      ({ s with
          atHandlers := { id := s.nextId, fileHandle := fhArg.getD s.fh, refCount := 1,
                          timeout := s.defaultTimeout,
                          debugOn := s.modemDebugOn } :: s.atHandlers,
          nextId := s.nextId + 1,
          constructed := s.constructed ++ [s.nextId] }, s.nextId) := by
  unfold get_at_handler
  simp only [findInc_eq_none _ _ h]

theorem get_at_handler_poolState (s0 : DeviceState) (T : Nat) (k : Int) :
    get_at_handler (poolState s0 T k) (some T) = (poolState s0 T (k + 1), s0.nextId) := by
  unfold get_at_handler poolState findInc
  simp

theorem acqIter_poolState (s0 : DeviceState) (T : Nat) :
    ∀ (n : Nat) (k : Int), acqIter (some T) n (poolState s0 T k) =
      (poolState s0 T (k + n), List.replicate n s0.nextId) := by
  intro n
  induction n with
  | zero => intro k; simp [acqIter]
  | succ m ih =>
    intro k
    simp only [acqIter, get_at_handler_poolState, ih (k + 1), List.replicate_succ]
    have : k + 1 + (m : Int) = k + ((m + 1 : Nat) : Int) := by push_cast; ring
    rw [this]

theorem release_poolState_gt (s0 : DeviceState) (T : Nat) (k : Int)
    (hfresh : ∀ x ∈ s0.atHandlers, x.id ≠ s0.nextId) (hk : ¬ k - 1 = 0) :
    release_at_handler (poolState s0 T k) (some s0.nextId) = poolState s0 T (k - 1) := by
  unfold release_at_handler poolState
  simp only [releasePool_head s0.nextId T k s0.defaultTimeout s0.modemDebugOn
               s0.atHandlers hfresh, if_neg hk]
  simp

theorem release_poolState_one (s0 : DeviceState) (T : Nat)
    (hfresh : ∀ x ∈ s0.atHandlers, x.id ≠ s0.nextId) :
    release_at_handler (poolState s0 T 1) (some s0.nextId) = afterAcqRel s0 := by
  unfold release_at_handler poolState afterAcqRel
  simp only [releasePool_head s0.nextId T 1 s0.defaultTimeout s0.modemDebugOn
               s0.atHandlers hfresh]
  simp

theorem relIter_cons (i : Nat) (ids : List Nat) (s : DeviceState) :
    relIter (i :: ids) s = relIter ids (release_at_handler s (some i)) := rfl

theorem relIter_poolState_lt (s0 : DeviceState) (T : Nat)
    (hfresh : ∀ x ∈ s0.atHandlers, x.id ≠ s0.nextId) :
    ∀ (m : Nat) (k : Int), (m : Int) < k →
      relIter (List.replicate m s0.nextId) (poolState s0 T k) = poolState s0 T (k - m) := by
  intro m
  induction m with
  | zero => intro k _; simp [relIter]
  | succ j ih =>
    intro k hk
    have hj : ((j : Nat) : Int) < (k : Int) := by push_cast at hk ⊢; omega
    have hk1 : ¬ k - 1 = 0 := by push_cast at hk; omega
    rw [List.replicate_succ, relIter_cons, release_poolState_gt s0 T k hfresh hk1]
    have hj2 : ((j : Nat) : Int) < k - 1 := by push_cast at hk ⊢; omega
    rw [ih (k - 1) hj2]
    have : k - 1 - (j : Int) = k - ((j + 1 : Nat) : Int) := by push_cast; ring
    rw [this]

theorem relIter_poolState_exact (s0 : DeviceState) (T : Nat)
    (hfresh : ∀ x ∈ s0.atHandlers, x.id ≠ s0.nextId) :
    ∀ (m : Nat),
      relIter (List.replicate (m + 1) s0.nextId) (poolState s0 T ((m : Int) + 1)) =
        afterAcqRel s0 := by
  intro m
  induction m with
  | zero =>
    rw [List.replicate_succ, List.replicate]
    rw [show ((0 : Nat) : Int) + 1 = 1 by norm_num]
    rw [relIter_cons, release_poolState_one s0 T hfresh]
    rfl
  | succ j ih =>
    rw [List.replicate_succ, relIter_cons]
    have hk1 : ¬ ((j + 1 : Nat) : Int) + 1 - 1 = 0 := by push_cast; omega
    rw [release_poolState_gt s0 T _ hfresh hk1]
    have : ((j + 1 : Nat) : Int) + 1 - 1 = (j : Int) + 1 := by push_cast; ring
    rw [this, ih]

theorem countT_eq_zero (T : Nat) (s : DeviceState)
    (h : ∀ x ∈ s.atHandlers, x.fileHandle ≠ T) : countT T s = 0 := by
  unfold countT
  rw [List.countP_eq_zero]
  intro x hx
  simpa using h x hx

theorem countT_poolState (s0 : DeviceState) (T : Nat) (k : Int)
    (hT : ∀ x ∈ s0.atHandlers, x.fileHandle ≠ T) :
    countT T (poolState s0 T k) = 1 := by
  unfold countT poolState
  simp only [List.countP_cons]
  have : List.countP (fun h => h.fileHandle == T) s0.atHandlers = 0 := by
    rw [List.countP_eq_zero]
    intro x hx
    simpa using hT x hx
  simp [this]

theorem acqIter_closed (s0 : DeviceState) (T : Nat)
    (hT : ∀ x ∈ s0.atHandlers, x.fileHandle ≠ T) :
    ∀ (m : Nat), acqIter (some T) (m + 1) s0 =
      (poolState s0 T ((m : Int) + 1), List.replicate (m + 1) s0.nextId) := by
  intro m
  have h1 : get_at_handler s0 (some T) = (poolState s0 T 1, s0.nextId) := by
    rw [get_at_handler_fresh s0 (some T) (by simpa using hT)]
    rfl
  simp only [acqIter, h1, acqIter_poolState]
  rw [List.replicate_succ]
  have : (1 : Int) + (m : Int) = (m : Int) + 1 := by ring
  rw [this]

/-- Claim C4: starting from a pool with no entry for transport T, a sequence
of N acquisitions for T returns the same handler id every time; N releases of
that handler leave the pool exactly as before with no entry for T; exactly one
handler is constructed and exactly one destroyed for T regardless of N; and at
every intermediate point at most one handler exists for T. -/
theorem c4_acquire_release (s0 : DeviceState) (T n : Nat) (hn : 1 ≤ n)
    (hT : ∀ x ∈ s0.atHandlers, x.fileHandle ≠ T)
    (hfresh : ∀ x ∈ s0.atHandlers, x.id ≠ s0.nextId) :
    (∀ i ∈ (acqIter (some T) n s0).2, i = s0.nextId)
    ∧ (relIter (acqIter (some T) n s0).2 (acqIter (some T) n s0).1).atHandlers
        = s0.atHandlers
    ∧ countT T (relIter (acqIter (some T) n s0).2 (acqIter (some T) n s0).1) = 0
    ∧ (relIter (acqIter (some T) n s0).2 (acqIter (some T) n s0).1).constructed
        = s0.constructed ++ [s0.nextId]
    ∧ (relIter (acqIter (some T) n s0).2 (acqIter (some T) n s0).1).destroyed
        = s0.destroyed ++ [s0.nextId]
    ∧ (∀ k, k ≤ n → countT T (acqIter (some T) k s0).1 ≤ 1)
    ∧ (∀ k, k ≤ n →
        countT T (relIter ((acqIter (some T) n s0).2.take k) (acqIter (some T) n s0).1) ≤ 1) := by
  obtain ⟨m, rfl⟩ : ∃ m, n = m + 1 := ⟨n - 1, by omega⟩
  have hacq := acqIter_closed s0 T hT m
  have hrel := relIter_poolState_exact s0 T hfresh m
  have hz : countT T s0 = 0 := countT_eq_zero T s0 hT
  refine ⟨?_, ?_, ?_, ?_, ?_, ?_, ?_⟩
  · rw [hacq]
    intro i hi
    exact List.eq_of_mem_replicate hi
  · rw [hacq]
    simp only [hrel]
    rfl
  · rw [hacq]
    simp only [hrel]
    apply countT_eq_zero
    intro x hx
    exact hT x hx
  · rw [hacq]
    simp only [hrel]
    rfl
  · rw [hacq]
    simp only [hrel]
    rfl
  · intro k hk
    cases k with
    | zero =>
      simp only [acqIter]
      omega
    | succ j =>
      rw [acqIter_closed s0 T hT j]
      rw [countT_poolState s0 T _ hT]
  · intro k hk
    rw [hacq]
    rcases Nat.lt_or_ge k (m + 1) with hlt | hge
    · rw [List.take_replicate, Nat.min_eq_left (by omega)]
      rw [relIter_poolState_lt s0 T hfresh k _ (by omega)]
      rw [countT_poolState s0 T _ hT]
    · have hkeq : k = m + 1 := by omega
      subst hkeq
      rw [List.take_replicate, Nat.min_self]
      rw [hrel]
      have hfz : countT T (afterAcqRel s0) = 0 := by
        apply countT_eq_zero
        intro x hx
        exact hT x hx
      omega

theorem c4_witness :
    (relIter (acqIter (some 7) 2 sampleDevice).2
      (acqIter (some 7) 2 sampleDevice).1).atHandlers = [] := by
  have h := (c4_acquire_release sampleDevice 7 2 (by norm_num)
    (by intro x hx; simp [sampleDevice] at hx)
    (by intro x hx; simp [sampleDevice] at hx)).2.1
  rw [h]
  rfl

/-- Claim C2 as amended: for every non-negative duration the code selects the
first unit u, in the order 2s, 30s, 1 min, 10 min, 1 h, 10 h, whose capacity
covers the duration (duration ≤ 31 · u), falling back to the 320-hour bucket;
the magnitude is floor(duration / u) and never exceeds 31, with explicit
clamping only in the 320-hour fallback. -/
theorem c2_amended_selection (d : Nat) :
    encode_periodic d = amended_select d ∧ (encode_periodic d).1 ≤ 31 := by
  unfold encode_periodic amended_select psm_unit_table ie_value_max
  by_cases h1 : d ≤ 62
  · simp [h1, show d ≤ 31 * 2 by omega, show d / 2 ≤ 31 by omega]
  · by_cases h2 : d ≤ 930
    · simp [h1, h2, show ¬ d ≤ 31 * 2 by omega, show d ≤ 31 * 30 by omega,
            show 2 * 31 = 62 by norm_num, show 30 * 31 = 930 by norm_num,
            show d / 30 ≤ 31 by omega]
    · by_cases h3 : d ≤ 1860
      · simp [show ¬ d ≤ 2 * 31 by omega, show ¬ d ≤ 30 * 31 by omega,
              show d ≤ 60 * 31 by omega, show ¬ d ≤ 31 * 2 by omega,
              show ¬ d ≤ 31 * 30 by omega, show d ≤ 31 * 60 by omega,
              show d / 60 ≤ 31 by omega]
      · by_cases h4 : d ≤ 18600
        · simp [show ¬ d ≤ 2 * 31 by omega, show ¬ d ≤ 30 * 31 by omega,
                show ¬ d ≤ 60 * 31 by omega, show d ≤ 10 * 60 * 31 by omega,
                show ¬ d ≤ 31 * 2 by omega, show ¬ d ≤ 31 * 30 by omega,
                show ¬ d ≤ 31 * 60 by omega, show d ≤ 31 * 600 by omega,
                show d / (10 * 60) ≤ 31 by omega]
        · by_cases h5 : d ≤ 111600
          · simp [show ¬ d ≤ 2 * 31 by omega, show ¬ d ≤ 30 * 31 by omega,
                  show ¬ d ≤ 60 * 31 by omega, show ¬ d ≤ 10 * 60 * 31 by omega,
                  show d ≤ 60 * 60 * 31 by omega,
                  show ¬ d ≤ 31 * 2 by omega, show ¬ d ≤ 31 * 30 by omega,
                  show ¬ d ≤ 31 * 60 by omega, show ¬ d ≤ 31 * 600 by omega,
                  show d ≤ 31 * 3600 by omega,
                  show d / (60 * 60) ≤ 31 by omega]
          · by_cases h6 : d ≤ 1116000
            · simp [show ¬ d ≤ 2 * 31 by omega, show ¬ d ≤ 30 * 31 by omega,
                    show ¬ d ≤ 60 * 31 by omega, show ¬ d ≤ 10 * 60 * 31 by omega,
                    show ¬ d ≤ 60 * 60 * 31 by omega, show d ≤ 10 * 60 * 60 * 31 by omega,
                    show ¬ d ≤ 31 * 2 by omega, show ¬ d ≤ 31 * 30 by omega,
                    show ¬ d ≤ 31 * 60 by omega, show ¬ d ≤ 31 * 600 by omega,
                    show ¬ d ≤ 31 * 3600 by omega, show d ≤ 31 * 36000 by omega,
                    show d / (10 * 60 * 60) ≤ 31 by omega]
            · simp only [show ¬ d ≤ 2 * 31 by omega, show ¬ d ≤ 30 * 31 by omega,
                    show ¬ d ≤ 60 * 31 by omega, show ¬ d ≤ 10 * 60 * 31 by omega,
                    show ¬ d ≤ 60 * 60 * 31 by omega, show ¬ d ≤ 10 * 60 * 60 * 31 by omega,
                    show ¬ d ≤ 31 * 2 by omega, show ¬ d ≤ 31 * 30 by omega,
                    show ¬ d ≤ 31 * 60 by omega, show ¬ d ≤ 31 * 600 by omega,
                    show ¬ d ≤ 31 * 3600 by omega, show ¬ d ≤ 31 * 36000 by omega,
                    if_false, List.find?, decide_eq_true_eq, ite_false]
              constructor
              · simp
              · split <;> omega

theorem findInc_id_mem (fh : Nat) :
    ∀ (l : List ATHandler) (l' : List ATHandler) (i : Nat),
      findInc fh l = some (l', i) → i ∈ l.map ATHandler.id := by
  intro l
  induction l with
  | nil => intro l' i h; simp [findInc] at h
  | cons a t ih =>
    intro l' i h
    simp only [findInc] at h
    by_cases ha : a.fileHandle = fh
    · rw [if_pos ha] at h
      obtain ⟨-, h2⟩ := Prod.mk.injEq .. ▸ (Option.some.injEq .. ▸ h)
      simp [← h2]
    · rw [if_neg ha] at h
      rcases hft : findInc fh t with - | r
      · rw [hft] at h; exact absurd h (by simp)
      · rw [hft] at h
        obtain ⟨-, h2⟩ := Prod.mk.injEq .. ▸ (Option.some.injEq .. ▸ h)
        have := ih r.1 r.2 hft
        simp only [List.map_cons, List.mem_cons]
        right
        rw [← h2]
        exact this

theorem releasePool_findInc (fh : Nat) :
    ∀ (l : List ATHandler) (l' : List ATHandler) (i : Nat),
      findInc fh l = some (l', i) →
      (∀ x ∈ l, 0 < x.refCount) →
      (l.map ATHandler.id).Nodup →
      releasePool i l' = (l, false) := by
  intro l
  induction l with
  | nil => intro l' i h; simp [findInc] at h
  | cons a t ih =>
    intro l' i h hpos hnodup
    have hand : a.id ∉ t.map ATHandler.id ∧ (t.map ATHandler.id).Nodup := by
      simpa using hnodup
    simp only [findInc] at h
    by_cases ha : a.fileHandle = fh
    · rw [if_pos ha] at h
      have h1 : ({ a with refCount := a.refCount + 1 } :: t, a.id) = (l', i) :=
        Option.some.injEq .. ▸ h
      obtain ⟨hl', hi⟩ := Prod.mk.injEq .. ▸ h1
      subst hl'; subst hi
      have htne : ∀ x ∈ t, x.id ≠ a.id := by
        intro x hx hxe
        exact hand.1 (hxe ▸ List.mem_map_of_mem ATHandler.id hx)
      rw [releasePool_head a.id a.fileHandle (a.refCount + 1) a.timeout a.debugOn t htne]
      have hrc : ¬ a.refCount + 1 - 1 = 0 := by
        have := hpos a (List.mem_cons_self a t)
        omega
      rw [if_neg hrc]
      have : a.refCount + 1 - 1 = a.refCount := by ring
      rw [this]
    · rw [if_neg ha] at h
      rcases hft : findInc fh t with - | r
      · rw [hft] at h; exact absurd h (by simp)
      · rw [hft] at h
        have h1 : (a :: r.1, r.2) = (l', i) := Option.some.injEq .. ▸ h
        obtain ⟨hl', hi⟩ := Prod.mk.injEq .. ▸ h1
        subst hl'; subst hi
        have hit : r.2 ∈ t.map ATHandler.id := by
          obtain ⟨r1, r2⟩ := r
          exact findInc_id_mem fh t r1 r2 hft
        have hai : ¬ a.id = r.2 := by
          intro he
          exact hand.1 (he ▸ hit)
        have hrel := ih r.1 r.2 hft (fun x hx => hpos x (List.mem_cons_of_mem a hx)) hand.2
        unfold releasePool at hrel ⊢
        simp only [decRef, List.map_cons, if_neg hai]
        simp only [decRef] at hrel
        rw [List.find?_cons_of_neg _ (by simp [hai])]
        rcases hf : List.find? (fun h => h.id == r.2)
            (List.map (fun h => if h.id = r.2 then { h with refCount := h.refCount - 1 } else h) r.1) with - | fd
        · rw [hf] at hrel
          simp only at hrel
          have h2 := Prod.mk.injEq .. ▸ hrel
          simp only [hf]
          rw [h2.1]
        · rw [hf] at hrel
          simp only at hrel
          by_cases hz : fd.refCount = 0
          · rw [if_pos hz] at hrel
            have := (Prod.mk.injEq .. ▸ hrel).2
            simp at this
          · rw [if_neg hz] at hrel
            have h2 := Prod.mk.injEq .. ▸ hrel
            simp only [hf]
            rw [if_neg hz, h2.1]

theorem releasePool_after_get (s : DeviceState) (fhArg : Option Nat)
    (hpos : ∀ x ∈ s.atHandlers, 0 < x.refCount)
    (hfresh : ∀ x ∈ s.atHandlers, x.id ≠ s.nextId)
    (hnodup : (s.atHandlers.map ATHandler.id).Nodup) :
    (releasePool (get_at_handler s fhArg).2 (get_at_handler s fhArg).1.atHandlers).1
      = s.atHandlers := by
  unfold get_at_handler
  rcases hfi : findInc (fhArg.getD s.fh) s.atHandlers with - | r
  · simp only
    rw [releasePool_head s.nextId (fhArg.getD s.fh) 1 s.defaultTimeout s.modemDebugOn
          s.atHandlers hfresh]
    norm_num
  · simp only
    obtain ⟨l', i⟩ := r
    rw [releasePool_findInc (fhArg.getD s.fh) s.atHandlers l' i hfi hpos hnodup]

theorem get_keeps_nextSubId (s : DeviceState) (fhArg : Option Nat) :
    (get_at_handler s fhArg).1.nextSubId = s.nextSubId := by
  unfold get_at_handler
  rcases hfi : findInc (fhArg.getD s.fh) s.atHandlers with - | r <;> simp

theorem get_keeps_network (s : DeviceState) (fhArg : Option Nat) :
    (get_at_handler s fhArg).1.network = s.network := by
  unfold get_at_handler
  rcases hfi : findInc (fhArg.getD s.fh) s.atHandlers with - | r <;> simp

theorem get_keeps_networkRefCount (s : DeviceState) (fhArg : Option Nat) :
    (get_at_handler s fhArg).1.networkRefCount = s.networkRefCount := by
  unfold get_at_handler
  rcases hfi : findInc (fhArg.getD s.fh) s.atHandlers with - | r <;> simp

theorem open_network_first (s : DeviceState) (fh : Option Nat) (h : s.network = none) :
    open_network s fh =
      ({ (get_at_handler s fh).1 with
          network := some { subId := s.nextSubId, handlerId := (get_at_handler s fh).2 },
          nextSubId := s.nextSubId + 1,
          networkRefCount := s.networkRefCount + 1 },
        some { subId := s.nextSubId, handlerId := (get_at_handler s fh).2 }) := by
  unfold open_network
  rw [h]
  simp [get_keeps_nextSubId, get_keeps_networkRefCount]

theorem open_network_again (s : DeviceState) (fh : Option Nat) (n : Subsys)
    (h : s.network = some n) :
    open_network s fh = ({ s with networkRefCount := s.networkRefCount + 1 }, some n) := by
  unfold open_network
  simp [h]

theorem openNetIter_occupied (n : Subsys) :
    ∀ (fhs : List (Option Nat)) (s : DeviceState), s.network = some n →
      openNetIter fhs s =
        ({ s with networkRefCount := s.networkRefCount + fhs.length },
         List.replicate fhs.length (some n)) := by
  intro fhs
  induction fhs with
  | nil =>
    intro s h
    simp [openNetIter]
  | cons fh rest ih =>
    intro s h
    simp only [openNetIter]
    rw [open_network_again s fh n h]
    rw [ih { s with networkRefCount := s.networkRefCount + 1 } (by simp [h])]
    simp only [List.replicate_succ, List.length_cons]
    have harith : s.networkRefCount + 1 + (rest.length : Int) =
        s.networkRefCount + ((rest.length + 1 : Nat) : Int) := by
      push_cast
      ring
    rw [harith]

theorem close_network_pos (s : DeviceState) (n : Subsys) (h : s.network = some n)
    (hrc : ¬ s.networkRefCount - 1 = 0) :
    close_network s = { s with networkRefCount := s.networkRefCount - 1 } := by
  unfold close_network
  simp [h, hrc]

theorem close_network_last (s : DeviceState) (n : Subsys) (h : s.network = some n)
    (hrc : s.networkRefCount = 1) :
    close_network s =
      release_at_handler
        { s with networkRefCount := 0, network := none,
                 destroyedSubs := s.destroyedSubs ++ [n.subId] }
        (some n.handlerId) := by
  unfold close_network
  simp [h, hrc]

theorem closeNetIter_steady (n : Subsys) :
    ∀ (m : Nat) (s : DeviceState), s.network = some n → (m : Int) < s.networkRefCount →
      closeNetIter m s = { s with networkRefCount := s.networkRefCount - m } := by
  intro m
  induction m with
  | zero =>
    intro s h hm
    simp [closeNetIter]
  | succ j ih =>
    intro s h hm
    have hrc : ¬ s.networkRefCount - 1 = 0 := by
      push_cast at hm
      omega
    simp only [closeNetIter]
    rw [close_network_pos s n h hrc]
    rw [ih { s with networkRefCount := s.networkRefCount - 1 } (by simp [h])
        (by simp; push_cast at hm ⊢; omega)]
    have harith : s.networkRefCount - 1 - (j : Int) =
        s.networkRefCount - ((j + 1 : Nat) : Int) := by
      push_cast
      ring
    rw [harith]

theorem release_fields_net (s : DeviceState) (i : Nat) :
    (release_at_handler s (some i)).atHandlers = (releasePool i s.atHandlers).1
    ∧ (release_at_handler s (some i)).network = s.network
    ∧ (release_at_handler s (some i)).networkRefCount = s.networkRefCount := by
  unfold release_at_handler
  by_cases hb : (releasePool i s.atHandlers).2 <;> simp [hb]

theorem closeNetIter_add (a : Nat) :
    ∀ (b : Nat) (s : DeviceState), closeNetIter (a + b) s = closeNetIter a (closeNetIter b s) := by
  intro b
  induction b with
  | zero => intro s; rfl
  | succ j ih =>
    intro s
    have : a + (j + 1) = (a + j) + 1 := by omega
    rw [this]
    simp only [closeNetIter]
    exact ih (close_network s)

theorem closeNetIter_all (n : Subsys) :
    ∀ (m : Nat) (s : DeviceState),
      s.network = some n → s.networkRefCount = ((m + 1 : Nat) : Int) →
      closeNetIter (m + 1) s =
        release_at_handler
          { s with networkRefCount := 0, network := none,
                   destroyedSubs := s.destroyedSubs ++ [n.subId] }
          (some n.handlerId) := by
  intro m
  induction m with
  | zero =>
    intro s h hrc
    show close_network s = _
    exact close_network_last s n h (by rw [hrc]; norm_num)
  | succ j ih =>
    intro s h hrc
    show closeNetIter (j + 1) (close_network s) = _
    rw [close_network_pos s n h (by rw [hrc]; push_cast; omega)]
    rw [ih { s with networkRefCount := s.networkRefCount - 1 } (by simp [h])
        (by simp only [hrc]; push_cast; ring)]

/-- Claim C5: K opens of the network slot before any close return the
identical subsystem instance on every call whatever transport arguments the
later opens pass, with the slot bound once and its reference count equal to K;
after K closes the slot is empty, the count is zero and the pool, hence the
bound handler reference count, is back to its pre-open value. -/
theorem c5_open_close (s0 : DeviceState) (fhs : List (Option Nat)) (hne : fhs ≠ [])
    (hslot : s0.network = none) (hrc : s0.networkRefCount = 0)
    (hpos : ∀ x ∈ s0.atHandlers, 0 < x.refCount)
    (hfresh : ∀ x ∈ s0.atHandlers, x.id ≠ s0.nextId)
    (hnodup : (s0.atHandlers.map ATHandler.id).Nodup) :
    ∃ inst : Subsys,
      (openNetIter fhs s0).2 = List.replicate fhs.length (some inst)
      ∧ (openNetIter fhs s0).1.network = some inst
      ∧ (openNetIter fhs s0).1.networkRefCount = (fhs.length : Int)
      ∧ (closeNetIter fhs.length (openNetIter fhs s0).1).network = none
      ∧ (closeNetIter fhs.length (openNetIter fhs s0).1).networkRefCount = 0
      ∧ (closeNetIter fhs.length (openNetIter fhs s0).1).atHandlers = s0.atHandlers := by
  obtain ⟨fh0, rest, rfl⟩ : ∃ a l, fhs = a :: l := by
    cases fhs with
    | nil => exact absurd rfl hne
    | cons a l => exact ⟨a, l, rfl⟩
  have hopen1 := open_network_first s0 fh0 hslot
  have hrest := openNetIter_occupied
    { subId := s0.nextSubId, handlerId := (get_at_handler s0 fh0).2 } rest
    { (get_at_handler s0 fh0).1 with
        network := some { subId := s0.nextSubId, handlerId := (get_at_handler s0 fh0).2 },
        nextSubId := s0.nextSubId + 1,
        networkRefCount := s0.networkRefCount + 1 } rfl
  have hmain : openNetIter (fh0 :: rest) s0 =
      ({ (get_at_handler s0 fh0).1 with
          network := some { subId := s0.nextSubId, handlerId := (get_at_handler s0 fh0).2 },
          nextSubId := s0.nextSubId + 1,
          networkRefCount := s0.networkRefCount + 1 + rest.length },
       some { subId := s0.nextSubId, handlerId := (get_at_handler s0 fh0).2 }
         :: List.replicate rest.length
              (some { subId := s0.nextSubId, handlerId := (get_at_handler s0 fh0).2 })) := by
    simp only [openNetIter, hopen1, hrest]
  have hclose := closeNetIter_all
    { subId := s0.nextSubId, handlerId := (get_at_handler s0 fh0).2 } rest.length
    { (get_at_handler s0 fh0).1 with
        network := some { subId := s0.nextSubId, handlerId := (get_at_handler s0 fh0).2 },
        nextSubId := s0.nextSubId + 1,
        networkRefCount := s0.networkRefCount + 1 + rest.length } rfl
    (by simp only [hrc]; push_cast; ring)
  have hrel := release_fields_net
    { (get_at_handler s0 fh0).1 with
        network := none,
        nextSubId := s0.nextSubId + 1,
        networkRefCount := 0,
        destroyedSubs := (get_at_handler s0 fh0).1.destroyedSubs ++ [s0.nextSubId] }
    (get_at_handler s0 fh0).2
  refine ⟨{ subId := s0.nextSubId, handlerId := (get_at_handler s0 fh0).2 },
          ?_, ?_, ?_, ?_, ?_, ?_⟩
  · rw [hmain, List.length_cons, List.replicate_succ]
  · rw [hmain]
  · rw [hmain]
    show s0.networkRefCount + 1 + (rest.length : Int) = _
    rw [hrc]
    simp only [List.length_cons]
    push_cast
    ring
  · rw [hmain]
    show (closeNetIter (rest.length + 1) _).network = none
    rw [hclose]
    exact hrel.2.1
  · rw [hmain]
    show (closeNetIter (rest.length + 1) _).networkRefCount = 0
    rw [hclose]
    exact hrel.2.2
  · rw [hmain]
    show (closeNetIter (rest.length + 1) _).atHandlers = s0.atHandlers
    rw [hclose]
    rw [hrel.1]
    exact releasePool_after_get s0 fh0 hpos hfresh hnodup

theorem c5_witness :
    (closeNetIter [some 7, none].length (openNetIter [some 7, none] sampleDevice).1).atHandlers
      = sampleDevice.atHandlers := by
  obtain ⟨inst, -, -, -, -, -, h6⟩ := c5_open_close sampleDevice [some 7, none] (by simp)
    rfl rfl
    (by intro x hx; simp [sampleDevice] at hx)
    (by intro x hx; simp [sampleDevice] at hx)
    (by simp [sampleDevice])
  exact h6

theorem decRef_ids (i : Nat) (l : List ATHandler) :
    (decRef i l).map ATHandler.id = l.map ATHandler.id := by
  induction l with
  | nil => rfl
  | cons a t ih =>
    simp only [decRef, List.map_cons] at ih ⊢
    rw [ih]
    by_cases ha : a.id = i
    · rw [if_pos ha]
    · rw [if_neg ha]

theorem eraseById_ids (i : Nat) (l : List ATHandler) (j : Nat)
    (hj : j ∈ l.map ATHandler.id) :
    j ∈ (eraseById i l).map ATHandler.id ∨ j = i := by
  induction l with
  | nil => simp at hj
  | cons a t ih =>
    simp only [List.map_cons, List.mem_cons] at hj
    simp only [eraseById]
    by_cases ha : a.id = i
    · rw [if_pos ha]
      rcases hj with hj | hj
      · right; rw [hj, ha]
      · left; exact hj
    · rw [if_neg ha]
      rcases hj with hj | hj
      · left; simp [hj]
      · rcases ih hj with h | h
        · left; simp [h]
        · right; exact h

theorem releasePool_ids (i : Nat) (pool : List ATHandler) (j : Nat)
    (hj : j ∈ pool.map ATHandler.id) :
    j ∈ (releasePool i pool).1.map ATHandler.id ∨ j = i := by
  unfold releasePool
  rcases hf : (decRef i pool).find? (fun h => h.id == i) with - | fd
  · simp only [hf]
    left
    rw [decRef_ids]
    exact hj
  · simp only [hf]
    by_cases hz : fd.refCount = 0
    · rw [if_pos hz]
      exact eraseById_ids i (decRef i pool) j (by rw [decRef_ids]; exact hj)
    · rw [if_neg hz]
      left
      rw [decRef_ids]
      exact hj

theorem releasePool_false_ids (i : Nat) (pool : List ATHandler)
    (hb : (releasePool i pool).2 = false) :
    (releasePool i pool).1.map ATHandler.id = pool.map ATHandler.id := by
  unfold releasePool at hb ⊢
  rcases hf : (decRef i pool).find? (fun h => h.id == i) with - | fd
  · simp only [hf]
    exact decRef_ids i pool
  · simp only [hf] at hb ⊢
    by_cases hz : fd.refCount = 0
    · rw [if_pos hz] at hb
      simp at hb
    · rw [if_neg hz]
      exact decRef_ids i pool

theorem release_keeps (s : DeviceState) (hid : Option Nat) :
    (release_at_handler s hid).network = s.network
    ∧ (release_at_handler s hid).networkRefCount = s.networkRefCount
    ∧ (release_at_handler s hid).sms = s.sms
    ∧ (release_at_handler s hid).smsRefCount = s.smsRefCount
    ∧ (release_at_handler s hid).power = s.power
    ∧ (release_at_handler s hid).powerRefCount = s.powerRefCount
    ∧ (release_at_handler s hid).information = s.information
    ∧ (release_at_handler s hid).infoRefCount = s.infoRefCount
    ∧ (release_at_handler s hid).contextList = s.contextList
    ∧ (release_at_handler s hid).destroyedSubs = s.destroyedSubs
    ∧ (release_at_handler s hid).destroyedCtxs = s.destroyedCtxs
    ∧ s.destroyed ⊆ (release_at_handler s hid).destroyed
    ∧ (∀ j, j ∈ s.atHandlers.map ATHandler.id →
        j ∈ (release_at_handler s hid).atHandlers.map ATHandler.id
          ∨ j ∈ (release_at_handler s hid).destroyed) := by
  cases hid with
  | none =>
    exact ⟨rfl, rfl, rfl, rfl, rfl, rfl, rfl, rfl, rfl, rfl, rfl,
           List.Subset.refl _, fun j hj => Or.inl hj⟩
  | some i =>
    simp only [release_at_handler]
    by_cases hb : (releasePool i s.atHandlers).2 = true
    · rw [if_pos hb]
      refine ⟨rfl, rfl, rfl, rfl, rfl, rfl, rfl, rfl, rfl, rfl, rfl, ?_, ?_⟩
      · intro j hj
        simp [hj]
      · intro j hj
        rcases releasePool_ids i s.atHandlers j hj with h | h
        · left; exact h
        · right; simp [h]
    · rw [if_neg hb]
      refine ⟨rfl, rfl, rfl, rfl, rfl, rfl, rfl, rfl, rfl, rfl, rfl, ?_, ?_⟩
      · intro j hj
        exact hj
      · intro j hj
        left
        rw [releasePool_false_ids i s.atHandlers (by simpa using hb)]
        exact hj

theorem close_network_one (s : DeviceState) (h1 : s.networkRefCount = 1) :
    (close_network s).network = none
    ∧ (close_network s).sms = s.sms
    ∧ (close_network s).smsRefCount = s.smsRefCount
    ∧ (close_network s).power = s.power
    ∧ (close_network s).powerRefCount = s.powerRefCount
    ∧ (close_network s).information = s.information
    ∧ (close_network s).infoRefCount = s.infoRefCount
    ∧ (close_network s).contextList = s.contextList
    ∧ (close_network s).destroyedCtxs = s.destroyedCtxs
    ∧ s.destroyed ⊆ (close_network s).destroyed
    ∧ s.destroyedSubs ⊆ (close_network s).destroyedSubs
    ∧ (∀ n, s.network = some n → n.subId ∈ (close_network s).destroyedSubs)
    ∧ (∀ j, j ∈ s.atHandlers.map ATHandler.id →
        j ∈ (close_network s).atHandlers.map ATHandler.id ∨ j ∈ (close_network s).destroyed) := by
  cases hnet : s.network with
  | none =>
    have hcl : close_network s = s := by unfold close_network; rw [hnet]
    rw [hcl]
    refine ⟨hnet, rfl, rfl, rfl, rfl, rfl, rfl, rfl, rfl, List.Subset.refl _, List.Subset.refl _, ?_, ?_⟩
    · intro n hn
      exact absurd hn (by simp)
    · intro j hj
      exact Or.inl hj
  | some n =>
    have hcl := close_network_last s n hnet h1
    rw [hcl]
    obtain ⟨k1, k2, k3, k4, k5, k6, k7, k8, k9, k10, k11, k12, k13⟩ :=
      release_keeps
        { s with networkRefCount := 0, network := none,
                 destroyedSubs := s.destroyedSubs ++ [n.subId] }
        (some n.handlerId)
    refine ⟨k1, k3, k4, k5, k6, k7, k8, k9, k11, k12, ?_, ?_, ?_⟩
    · rw [k10]
      exact List.subset_append_left _ _
    · intro m hm
      have hmn : n = m := by injection hm
      subst hmn
      rw [k10]
      show n.subId ∈ s.destroyedSubs ++ [n.subId]
      simp
    · intro j hj
      exact k13 j hj

theorem close_sms_last (s : DeviceState) (n : Subsys) (h : s.sms = some n)
    (hrc : s.smsRefCount = 1) :
    close_sms s =
      release_at_handler
        { s with smsRefCount := 0, sms := none,
                 destroyedSubs := s.destroyedSubs ++ [n.subId] }
        (some n.handlerId) := by
  unfold close_sms
  simp [h, hrc]

theorem close_sms_one (s : DeviceState) (h1 : s.smsRefCount = 1) :
    (close_sms s).sms = none
    ∧ (close_sms s).network = s.network
    ∧ (close_sms s).networkRefCount = s.networkRefCount
    ∧ (close_sms s).power = s.power
    ∧ (close_sms s).powerRefCount = s.powerRefCount
    ∧ (close_sms s).information = s.information
    ∧ (close_sms s).infoRefCount = s.infoRefCount
    ∧ (close_sms s).contextList = s.contextList
    ∧ (close_sms s).destroyedCtxs = s.destroyedCtxs
    ∧ s.destroyed ⊆ (close_sms s).destroyed
    ∧ s.destroyedSubs ⊆ (close_sms s).destroyedSubs
    ∧ (∀ n, s.sms = some n → n.subId ∈ (close_sms s).destroyedSubs)
    ∧ (∀ j, j ∈ s.atHandlers.map ATHandler.id →
        j ∈ (close_sms s).atHandlers.map ATHandler.id ∨ j ∈ (close_sms s).destroyed) := by
  cases hnet : s.sms with
  | none =>
    have hcl : close_sms s = s := by unfold close_sms; rw [hnet]
    rw [hcl]
    refine ⟨hnet, rfl, rfl, rfl, rfl, rfl, rfl, rfl, rfl, List.Subset.refl _, List.Subset.refl _, ?_, ?_⟩
    · intro n hn
      exact absurd hn (by simp)
    · intro j hj
      exact Or.inl hj
  | some n =>
    have hcl := close_sms_last s n hnet h1
    rw [hcl]
    obtain ⟨k1, k2, k3, k4, k5, k6, k7, k8, k9, k10, k11, k12, k13⟩ :=
      release_keeps
        { s with smsRefCount := 0, sms := none,
                 destroyedSubs := s.destroyedSubs ++ [n.subId] }
        (some n.handlerId)
    refine ⟨k3, k1, k2, k5, k6, k7, k8, k9, k11, k12, ?_, ?_, ?_⟩
    · rw [k10]
      exact List.subset_append_left _ _
    · intro m hm
      have hmn : n = m := by injection hm
      subst hmn
      rw [k10]
      show n.subId ∈ s.destroyedSubs ++ [n.subId]
      simp
    · intro j hj
      exact k13 j hj

theorem close_power_last (s : DeviceState) (n : Subsys) (h : s.power = some n)
    (hrc : s.powerRefCount = 1) :
    close_power s =
      release_at_handler
        { s with powerRefCount := 0, power := none,
                 destroyedSubs := s.destroyedSubs ++ [n.subId] }
        (some n.handlerId) := by
  unfold close_power
  simp [h, hrc]

theorem close_power_one (s : DeviceState) (h1 : s.powerRefCount = 1) :
    (close_power s).power = none
    ∧ (close_power s).network = s.network
    ∧ (close_power s).networkRefCount = s.networkRefCount
    ∧ (close_power s).sms = s.sms
    ∧ (close_power s).smsRefCount = s.smsRefCount
    ∧ (close_power s).information = s.information
    ∧ (close_power s).infoRefCount = s.infoRefCount
    ∧ (close_power s).contextList = s.contextList
    ∧ (close_power s).destroyedCtxs = s.destroyedCtxs
    ∧ s.destroyed ⊆ (close_power s).destroyed
    ∧ s.destroyedSubs ⊆ (close_power s).destroyedSubs
    ∧ (∀ n, s.power = some n → n.subId ∈ (close_power s).destroyedSubs)
    ∧ (∀ j, j ∈ s.atHandlers.map ATHandler.id →
        j ∈ (close_power s).atHandlers.map ATHandler.id ∨ j ∈ (close_power s).destroyed) := by
  cases hnet : s.power with
  | none =>
    have hcl : close_power s = s := by unfold close_power; rw [hnet]
    rw [hcl]
    refine ⟨hnet, rfl, rfl, rfl, rfl, rfl, rfl, rfl, rfl, List.Subset.refl _, List.Subset.refl _, ?_, ?_⟩
    · intro n hn
      exact absurd hn (by simp)
    · intro j hj
      exact Or.inl hj
  | some n =>
    have hcl := close_power_last s n hnet h1
    rw [hcl]
    obtain ⟨k1, k2, k3, k4, k5, k6, k7, k8, k9, k10, k11, k12, k13⟩ :=
      release_keeps
        { s with powerRefCount := 0, power := none,
                 destroyedSubs := s.destroyedSubs ++ [n.subId] }
        (some n.handlerId)
    refine ⟨k5, k1, k2, k3, k4, k7, k8, k9, k11, k12, ?_, ?_, ?_⟩
    · rw [k10]
      exact List.subset_append_left _ _
    · intro m hm
      have hmn : n = m := by injection hm
      subst hmn
      rw [k10]
      show n.subId ∈ s.destroyedSubs ++ [n.subId]
      simp
    · intro j hj
      exact k13 j hj

theorem close_information_last (s : DeviceState) (n : Subsys) (h : s.information = some n)
    (hrc : s.infoRefCount = 1) :
    close_information s =
      release_at_handler
        { s with infoRefCount := 0, information := none,
                 destroyedSubs := s.destroyedSubs ++ [n.subId] }
        (some n.handlerId) := by
  unfold close_information
  simp [h, hrc]

theorem close_information_one (s : DeviceState) (h1 : s.infoRefCount = 1) :
    (close_information s).information = none
    ∧ (close_information s).network = s.network
    ∧ (close_information s).networkRefCount = s.networkRefCount
    ∧ (close_information s).sms = s.sms
    ∧ (close_information s).smsRefCount = s.smsRefCount
    ∧ (close_information s).power = s.power
    ∧ (close_information s).powerRefCount = s.powerRefCount
    ∧ (close_information s).contextList = s.contextList
    ∧ (close_information s).destroyedCtxs = s.destroyedCtxs
    ∧ s.destroyed ⊆ (close_information s).destroyed
    ∧ s.destroyedSubs ⊆ (close_information s).destroyedSubs
    ∧ (∀ n, s.information = some n → n.subId ∈ (close_information s).destroyedSubs)
    ∧ (∀ j, j ∈ s.atHandlers.map ATHandler.id →
        j ∈ (close_information s).atHandlers.map ATHandler.id ∨ j ∈ (close_information s).destroyed) := by
  cases hnet : s.information with
  | none =>
    have hcl : close_information s = s := by unfold close_information; rw [hnet]
    rw [hcl]
    refine ⟨hnet, rfl, rfl, rfl, rfl, rfl, rfl, rfl, rfl, List.Subset.refl _, List.Subset.refl _, ?_, ?_⟩
    · intro n hn
      exact absurd hn (by simp)
    · intro j hj
      exact Or.inl hj
  | some n =>
    have hcl := close_information_last s n hnet h1
    rw [hcl]
    obtain ⟨k1, k2, k3, k4, k5, k6, k7, k8, k9, k10, k11, k12, k13⟩ :=
      release_keeps
        { s with infoRefCount := 0, information := none,
                 destroyedSubs := s.destroyedSubs ++ [n.subId] }
        (some n.handlerId)
    refine ⟨k7, k1, k2, k3, k4, k5, k6, k9, k11, k12, ?_, ?_, ?_⟩
    · rw [k10]
      exact List.subset_append_left _ _
    · intro m hm
      have hmn : n = m := by injection hm
      subst hmn
      rw [k10]
      show n.subId ∈ s.destroyedSubs ++ [n.subId]
      simp
    · intro j hj
      exact k13 j hj

/-- Claim C9: destroying the device frees every resource even when nothing
was explicitly closed: after teardown the pool is empty, all four subsystem
slots are empty, the context list is empty, every context is recorded
destroyed, every pooled handler is recorded destroyed, and every open
subsystem object is recorded destroyed. -/
theorem c9_teardown (s : DeviceState) :
    (destruct s).atHandlers = []
    ∧ (destruct s).network = none
    ∧ (destruct s).sms = none
    ∧ (destruct s).power = none
    ∧ (destruct s).information = none
    ∧ (destruct s).contextList = []
    ∧ (∀ c ∈ s.contextList, c.ctxId ∈ (destruct s).destroyedCtxs)
    ∧ (∀ x ∈ s.atHandlers, x.id ∈ (destruct s).destroyed)
    ∧ (∀ n, s.network = some n → n.subId ∈ (destruct s).destroyedSubs)
    ∧ (∀ n, s.sms = some n → n.subId ∈ (destruct s).destroyedSubs)
    ∧ (∀ n, s.power = some n → n.subId ∈ (destruct s).destroyedSubs)
    ∧ (∀ n, s.information = some n → n.subId ∈ (destruct s).destroyedSubs) := by
  obtain ⟨a1, a2, a3, a4, a5, a6, a7, a8, a9, a10, a11, a12, a13⟩ :=
    close_network_one (destructS1 s) rfl
  obtain ⟨b1, b2, b3, b4, b5, b6, b7, b8, b9, b10, b11, b12, b13⟩ :=
    close_sms_one (close_network (destructS1 s)) (by rw [a3]; rfl)
  obtain ⟨c1, c2, c3, c4, c5, c6, c7, c8, c9, c10, c11, c12, c13⟩ :=
    close_power_one (close_sms (close_network (destructS1 s))) (by rw [b5, a5]; rfl)
  obtain ⟨d1, d2, d3, d4, d5, d6, d7, d8, d9, d10, d11, d12, d13⟩ :=
    close_information_one (close_power (close_sms (close_network (destructS1 s))))
      (by rw [c7, b7, a7]; rfl)
  have hd : destruct s =
      { destructS5 s with
          atHandlers := [],
          contextList := [],
          destroyed := (destructS5 s).destroyed ++ (destructS5 s).atHandlers.map ATHandler.id,
          destroyedCtxs := (destructS5 s).destroyedCtxs
            ++ (destructS5 s).contextList.map CellCtx.ctxId } := rfl
  refine ⟨?_, ?_, ?_, ?_, ?_, ?_, ?_, ?_, ?_, ?_, ?_, ?_⟩
  · rw [hd]
  · rw [hd]
    show (destructS5 s).network = none
    unfold destructS5
    rw [d2, c2, b2, a1]
  · rw [hd]
    show (destructS5 s).sms = none
    unfold destructS5
    rw [d4, c4, b1]
  · rw [hd]
    show (destructS5 s).power = none
    unfold destructS5
    rw [d6, c1]
  · rw [hd]
    show (destructS5 s).information = none
    unfold destructS5
    exact d1
  · rw [hd]
  · intro c hc
    rw [hd]
    show c.ctxId ∈ (destructS5 s).destroyedCtxs ++ (destructS5 s).contextList.map CellCtx.ctxId
    have hctx : (destructS5 s).contextList = s.contextList := by
      unfold destructS5
      rw [d8, c8, b8, a8]
      rfl
    exact List.mem_append_right _ (List.mem_map_of_mem _ (hctx.symm ▸ hc))
  · intro x hx
    rw [hd]
    show x.id ∈ (destructS5 s).destroyed ++ (destructS5 s).atHandlers.map ATHandler.id
    have hx1 : x.id ∈ (destructS1 s).atHandlers.map ATHandler.id :=
      List.mem_map_of_mem _ hx
    have step : x.id ∈ (destructS5 s).atHandlers.map ATHandler.id
        ∨ x.id ∈ (destructS5 s).destroyed := by
      unfold destructS5
      rcases a13 x.id hx1 with t | t
      · rcases b13 x.id t with t | t
        · rcases c13 x.id t with t | t
          · exact d13 x.id t
          · right; exact d10 t
        · right; exact d10 (c10 t)
      · right; exact d10 (c10 (b10 t))
    rcases step with t | t
    · exact List.mem_append_right _ t
    · exact List.mem_append_left _ t
  · intro n hn
    rw [hd]
    show n.subId ∈ (destructS5 s).destroyedSubs
    unfold destructS5
    exact d11 (c11 (b11 (a12 n hn)))
  · intro n hn
    rw [hd]
    show n.subId ∈ (destructS5 s).destroyedSubs
    unfold destructS5
    exact d11 (c11 (b12 n (by rw [a2]; exact hn)))
  · intro n hn
    rw [hd]
    show n.subId ∈ (destructS5 s).destroyedSubs
    unfold destructS5
    exact d11 (c12 n (by rw [b4, a4]; exact hn))
  · intro n hn
    rw [hd]
    show n.subId ∈ (destructS5 s).destroyedSubs
    unfold destructS5
    exact d12 n (by rw [c6, b6, a6]; exact hn)

theorem c9_witness : 100 ∈ (destruct sampleDeviceFull).destroyedSubs :=
  (c9_teardown sampleDeviceFull).2.2.2.2.2.2.2.2.1 { subId := 100, handlerId := 0 } rfl
